import Mathlib

/-!
Shallow embedding of the API gateway logic of
`lista-compras-microservices/api-gateway/server.js`:
per-service circuit breaker, route proxying with path rewriting,
and the aggregate dashboard / global-search endpoints.

Timestamps and failure counters are embedded as `Int` (JS numbers used
only with `+ 1`, subtraction and order comparisons in this code).
-/

namespace Gateway

/-- Circuit-breaker record for one service, as stored in the gateway's
`circuitBreakers` map: `{ failures, isOpen, isHalfOpen, lastFailure }`. -/
structure Breaker where
  failures : Int
  isOpen : Bool
  isHalfOpen : Bool
  lastFailure : Int
  deriving DecidableEq

/-- The default record created by `recordFailure` when the map has no
entry for the service: `{ failures: 0, isOpen: false, isHalfOpen: false, lastFailure: 0 }`. -/
def freshBreaker : Breaker :=
  { failures := 0, isOpen := false, isHalfOpen := false, lastFailure := 0 }

/-- `isCircuitOpen(serviceName)` acting on the service's map entry
(`none` when the map has no record). Returns the boolean result together
with the (possibly mutated) entry: when the record is open and more than
30000 ms have passed since `lastFailure`, the record is demoted to
half-open and the check reports the circuit as not open. -/
def isCircuitOpen : Option Breaker → Int → Bool × Option Breaker
  | none, _ => (false, none)
  | some b, now =>
    if b.isOpen = true ∧ 30000 < now - b.lastFailure then
      (false, some { b with isOpen := false, isHalfOpen := true })
    else
      (b.isOpen, some b)

/-- `recordFailure(serviceName)` acting on the service's map entry at
time `now`: increments `failures`, stamps `lastFailure`, and opens the
circuit (clearing half-open) once `failures >= 3`. -/
def recordFailure (b? : Option Breaker) (now : Int) : Breaker :=
  let b0 := b?.getD freshBreaker
  let b1 := { b0 with failures := b0.failures + 1, lastFailure := now }
  if 3 ≤ b1.failures then
    { b1 with isOpen := true, isHalfOpen := false }
  else
    b1

/-- `resetCircuitBreaker(serviceName)`: when a record exists, zero the
failure count and close the circuit; when none exists, do nothing. -/
def resetCircuitBreaker (b? : Option Breaker) : Option Breaker :=
  b?.map fun b => { b with failures := 0, isOpen := false, isHalfOpen := false }

/-- Failure count of a map entry; a missing record counts as 0 failures. -/
def failCount (b? : Option Breaker) : Int :=
  (b?.map Breaker.failures).getD 0

/-- Open flag of a map entry; a missing record is not open. -/
def openFlag (b? : Option Breaker) : Bool :=
  (b?.map Breaker.isOpen).getD false

/-- Half-open flag of a map entry; a missing record is not half-open. -/
def halfOpenFlag (b? : Option Breaker) : Bool :=
  (b?.map Breaker.isHalfOpen).getD false

/-- Map entries reachable in the gateway process: the map starts without
a record, and a record is only ever touched by the gate check
(`isCircuitOpen`), failure recording (`recordFailure`) and the success
reset (`resetCircuitBreaker`). -/
inductive Reach : Option Breaker → Prop where
  | init : Reach none
  | gate (b? : Option Breaker) (now : Int) : Reach b? → Reach (isCircuitOpen b? now).2
  | fail (b? : Option Breaker) (now : Int) : Reach b? → Reach (some (recordFailure b? now))
  | reset (b? : Option Breaker) : Reach b? → Reach (resetCircuitBreaker b?)

/-- Basic state invariant of a breaker record: never simultaneously open
and half-open, and a non-negative failure count. -/
def BreakerInv (b? : Option Breaker) : Prop :=
  ∀ b, b? = some b → ¬(b.isOpen = true ∧ b.isHalfOpen = true) ∧ 0 ≤ b.failures

/-- Strengthened invariant used to reason about half-open records: any
open or half-open reachable record carries at least 3 recorded failures. -/
def StrongInv (b? : Option Breaker) : Prop :=
  ∀ b, b? = some b →
    ¬(b.isOpen = true ∧ b.isHalfOpen = true)
    ∧ 0 ≤ b.failures
    ∧ (b.isOpen = true → 3 ≤ b.failures)
    ∧ (b.isHalfOpen = true → 3 ≤ b.failures)

theorem strongInv_gate (b? : Option Breaker) (now : Int) (h : StrongInv b?) :
    StrongInv (isCircuitOpen b? now).2 := by
  cases b? with
  | none => intro b hb; simp [isCircuitOpen] at hb
  | some a =>
    intro b hb
    obtain ⟨hna, h0, hop, hho⟩ := h a rfl
    simp only [isCircuitOpen] at hb
    by_cases hc : a.isOpen = true ∧ 30000 < now - a.lastFailure
    · rw [if_pos hc] at hb
      simp only at hb
      cases Option.some.inj hb
      refine ⟨by simp, h0, by simp, ?_⟩
      intro _
      exact hop hc.1
    · rw [if_neg hc] at hb
      simp only at hb
      cases Option.some.inj hb
      exact ⟨hna, h0, hop, hho⟩

theorem strongInv_fail (b? : Option Breaker) (now : Int) (h : StrongInv b?) :
    StrongInv (some (recordFailure b? now)) := by
  have hold : ¬((b?.getD freshBreaker).isOpen = true ∧ (b?.getD freshBreaker).isHalfOpen = true)
      ∧ 0 ≤ (b?.getD freshBreaker).failures
      ∧ ((b?.getD freshBreaker).isOpen = true → 3 ≤ (b?.getD freshBreaker).failures)
      ∧ ((b?.getD freshBreaker).isHalfOpen = true → 3 ≤ (b?.getD freshBreaker).failures) := by
    cases b? with
    | none => simp [freshBreaker]
    | some a => simpa using h a rfl
  obtain ⟨hna, h0, hop, hho⟩ := hold
  intro b hb
  cases Option.some.inj hb
  simp only [recordFailure]
  by_cases hc : (3 : Int) ≤ (b?.getD freshBreaker).failures + 1
  · rw [if_pos hc]
    refine ⟨by simp, by simp; linarith, fun _ => by simpa using hc, fun hf => by simp at hf⟩
  · rw [if_neg hc]
    refine ⟨by simpa using hna, by simp; linarith, ?_, ?_⟩
    · intro ho
      simp only at ho ⊢
      have := hop ho
      linarith
    · intro ho
      simp only at ho ⊢
      have := hho ho
      linarith

theorem strongInv_reset (b? : Option Breaker) (h : StrongInv b?) :
    StrongInv (resetCircuitBreaker b?) := by
  cases b? with
  | none => intro b hb; simp [resetCircuitBreaker] at hb
  | some a =>
    intro b hb
    simp only [resetCircuitBreaker, Option.map] at hb
    cases Option.some.inj hb
    exact ⟨by simp, by simp, by simp, by simp⟩

theorem reach_strongInv (b? : Option Breaker) (h : Reach b?) : StrongInv b? := by
  induction h with
  | init => intro b hb; cases hb
  | gate b' now _ ih => exact strongInv_gate b' now ih
  | fail b' now _ ih => exact strongInv_fail b' now ih
  | reset b' _ ih => exact strongInv_reset b' ih

/-! ## Router / proxy -/

/-- One row of the gateway's static `routeTable`:
`{ prefix, service, strip, forwardBase }` (the path-prefix field is named
`routePrefix` here because `prefix` is reserved in Lean). -/
structure RouteRule where
  routePrefix : String
  service : String
  strip : String
  forwardBase : String
  deriving DecidableEq

/-- The gateway's route table, in declaration order. -/
def routeTable : List RouteRule :=
  [ { routePrefix := "/api/auth",  service := "user-service", strip := "/api/auth",  forwardBase := "/auth"  },
    { routePrefix := "/api/users", service := "user-service", strip := "/api/users", forwardBase := "/users" },
    { routePrefix := "/api/items", service := "item-service", strip := "/api/items", forwardBase := "/items" },
    { routePrefix := "/api/lists", service := "list-service", strip := "/api/lists", forwardBase := "/lists" } ]

/-- The parts of an Express request that `proxyByEntry` reads. -/
structure Request where
  method : String
  originalUrl : String
  headers : List (String × String)
  query : List (String × String)
  body : String
  deriving DecidableEq

/-- JS `haystack.replace(pattern, '')` with a string pattern: remove the
first occurrence of `pat` from the character list, leaving the list
unchanged when `pat` does not occur. -/
def removeFirst (pat : List Char) : List Char → List Char
  | [] => []
  | c :: rest =>
    if pat.isPrefixOf (c :: rest) then (c :: rest).drop pat.length
    else c :: removeFirst pat rest

/-- String wrapper for `removeFirst`: `s.replace(pat, '')`. -/
def replaceFirstStr (s pat : String) : String :=
  String.mk (removeFirst pat.data s.data)

/-- JS `suffix.startsWith('/')`: the first character is `'/'`. -/
def startsWithSlash (s : String) : Bool :=
  match s.data with
  | [] => false
  | c :: _ => c == '/'

/-- The suffix computation of `proxyByEntry`:
`let suffix = req.originalUrl.replace(entry.strip, '');`
`if (!suffix.startsWith('/')) suffix = '/' + suffix;`
`if (suffix === '/' || suffix === '') suffix = '';`. -/
def rewriteSuffix (strip originalUrl : String) : String :=
  let s1 := replaceFirstStr originalUrl strip
  let s2 := if startsWithSlash s1 then s1 else "/" ++ s1
  if s2 = "/" ∨ s2 = "" then "" else s2

/-- The axios request configuration assembled by `proxyByEntry`:
method and rewritten URL, the inbound headers minus `host` and
`content-length`, a 10s timeout, the body for mutating methods, and the
query parameters when non-empty. -/
structure AxiosCfg where
  method : String
  url : String
  headers : List (String × String)
  timeout : Int
  data : Option String
  params : Option (List (String × String))
  deriving DecidableEq

/-- Build the axios config for route `entry`, discovered base URL
`svcUrl` and request `req` (lines 166–191 of the gateway). -/
def buildConfig (entry : RouteRule) (svcUrl : String) (req : Request) : AxiosCfg :=
  let suffix := rewriteSuffix entry.strip req.originalUrl
  let targetPath := entry.forwardBase ++ suffix
  let targetUrl := svcUrl ++ targetPath
  { method := req.method
    url := targetUrl
    headers := req.headers.filter fun h => !(h.1 == "host" || h.1 == "content-length")
    timeout := 10000
    data := if ["POST", "PUT", "PATCH"].contains req.method then some req.body else none
    params := if req.query.isEmpty then none else some req.query }

/-- How the forwarded backend call would end, as seen through axios with
`validateStatus: status < 500`: a response (axios resolves when the
status is < 500, rejects with `error.response` otherwise), a connection
refusal (`ECONNREFUSED`), a timeout (`ETIMEDOUT`), or some other error
without a response or recognised code. -/
inductive BackendBehavior where
  | responds (status : Nat) (body : String)
  | refuses
  | timesOut
  | otherFailure (msg : String)
  deriving DecidableEq

/-- The JSON payload the gateway sends back, by shape. -/
inductive RespBody where
  | circuitOpen (service : String)
  | unknownService (service : String) (available : List String)
  | backend (body : String)
  | transportError (service code : String)
  | gatewayError (msg : String)
  deriving DecidableEq

/-- Outcome of one `proxyByEntry` call: the HTTP answer, the service's
breaker map entry afterwards, whether a backend call was attempted,
whether the registry was consulted, and the axios config used (if any). -/
structure ProxyResult where
  status : Nat
  body : RespBody
  breaker : Option Breaker
  backendCalled : Bool
  registryQueried : Bool
  config : Option AxiosCfg
  deriving DecidableEq

/-- `proxyByEntry(entry, req, res)` for the service's current breaker
map entry `b?` at time `now`, with `discovered` the result of
`serviceRegistry.discover` (`none` when it throws), `knownServices` the
keys of `serviceRegistry.listServices()`, and `backend` how the
forwarded call would end. Faithful to lines 140–222 of the gateway:
gate check first (short-circuit 503 naming the service), then registry
discovery (503 with the known services), then the forwarded call;
success (status < 500) resets the breaker and relays status and body,
a 5xx response records a failure and relays the backend payload,
refusal/timeout record a failure and answer 503, any other error records
a failure and answers 500. -/
def proxyByEntry (entry : RouteRule) (req : Request)
    (discovered : Option String) (knownServices : List String)
    (b? : Option Breaker) (now : Int) (backend : BackendBehavior) : ProxyResult :=
  let gate := isCircuitOpen b? now
  if gate.1 then
    { status := 503, body := .circuitOpen entry.service, breaker := gate.2,
      backendCalled := false, registryQueried := false, config := none }
  else
    match discovered with
    | none =>
      { status := 503, body := .unknownService entry.service knownServices,
        breaker := gate.2, backendCalled := false, registryQueried := true, config := none }
    | some svcUrl =>
      let cfg := buildConfig entry svcUrl req
      match backend with
      | .responds st body =>
        if st < 500 then
          { status := st, body := .backend body, breaker := resetCircuitBreaker gate.2,
            backendCalled := true, registryQueried := true, config := some cfg }
        else
          { status := st, body := .backend body, breaker := some (recordFailure gate.2 now),
            backendCalled := true, registryQueried := true, config := some cfg }
      | .refuses =>
        { status := 503, body := .transportError entry.service "ECONNREFUSED",
          breaker := some (recordFailure gate.2 now),
          backendCalled := true, registryQueried := true, config := some cfg }
      | .timesOut =>
        { status := 503, body := .transportError entry.service "ETIMEDOUT",
          breaker := some (recordFailure gate.2 now),
          backendCalled := true, registryQueried := true, config := some cfg }
      | .otherFailure msg =>
        { status := 500, body := .gatewayError msg, breaker := some (recordFailure gate.2 now),
          backendCalled := true, registryQueried := true, config := some cfg }

/-! ## Aggregator: /api/dashboard -/

/-- One branch outcome of `Promise.allSettled`. -/
inductive Settled (α : Type) where
  | fulfilled (v : α)
  | rejected
  deriving DecidableEq

/-- A JS value that is either an array or some non-array object (such as
the bare response envelope when its `data` field is missing). -/
inductive JArr (α : Type) where
  | arr (xs : List α)
  | nonArray
  deriving DecidableEq

/-- The `resRes.status === 'fulfilled' ? resRes.value.data || resRes.value : []`
compat extraction: a fulfilled branch whose envelope carries `data`
yields that value, a fulfilled branch without `data` yields the
(non-array) envelope itself, a rejected branch yields `[]`. -/
def settleData {α : Type} (r : Settled (Option (JArr α))) : JArr α :=
  match r with
  | .fulfilled (some v) => v
  | .fulfilled none => .nonArray
  | .rejected => .arr []

/-- The per-list `summary` block read by the dashboard reduction. -/
structure LSummary where
  totalItems : Int
  purchasedItems : Int
  estimatedTotal : ℚ
  deriving DecidableEq

/-- One shopping list as the dashboard sees it: possibly carrying a
`summary` (`l.summary || {totalItems: 0, purchasedItems: 0, estimatedTotal: 0}`). -/
structure LEntry where
  summary : Option LSummary
  deriving DecidableEq

/-- The dashboard's reduction loop over the user's lists: accumulated
`(totalItems, purchasedItems, estimatedTotal)`. -/
def sumTotals (lists : List LEntry) : Int × Int × ℚ :=
  lists.foldl
    (fun acc l =>
      let s := l.summary.getD { totalItems := 0, purchasedItems := 0, estimatedTotal := 0 }
      (acc.1 + s.totalItems, acc.2.1 + s.purchasedItems, acc.2.2 + s.estimatedTotal))
    (0, 0, 0)

/-- JS `Number(x.toFixed(2))`: round to two decimal places (exact
rational rounding, ties upward). -/
def round2 (q : ℚ) : ℚ := (round (q * 100) : ℤ) / 100

/-- The `lists` segment of the dashboard payload. -/
structure ListsSeg where
  totalLists : Int
  totalItems : Int
  purchasedItems : Int
  estimatedTotal : ℚ
  sample : List LEntry
  deriving DecidableEq

/-- The `catalog` segment of the dashboard payload; `sampleItems` keeps
the raw non-array value when the item branch produced one (the code only
slices when `.slice` exists). -/
structure CatalogSeg where
  sampleItems : JArr String
  categories : JArr String
  deriving DecidableEq

/-- Dashboard endpoint outcome: 200 `{success: true, …}`, 401 for a
missing Authorization header, or the catch-all 500. -/
inductive DashOut where
  | ok (lists : ListsSeg) (catalog : CatalogSeg)
  | unauthorized
  | failure
  deriving DecidableEq

/-- HTTP status of a dashboard outcome. -/
def DashOut.status : DashOut → Nat
  | .ok _ _ => 200
  | .unauthorized => 401
  | .failure => 500

/-- `success` flag of a dashboard outcome. -/
def DashOut.success : DashOut → Bool
  | .ok _ _ => true
  | _ => false

/-- `getDashboard(req, res)` (lines 293–344): reject without an
Authorization header; settle the three concurrent branch calls; apply
the `data || value` fallback per branch; reduce the lists when they form
an array (`Array.isArray`), otherwise the totals stay 0 and the
unguarded `lists.slice(0, 5)` throws, landing in the catch-all 500;
answer 200 with the reduced lists segment and the catalog segment. -/
def getDashboard (hasAuth : Bool)
    (listsRes : Settled (Option (JArr LEntry)))
    (itemsRes catsRes : Settled (Option (JArr String))) : DashOut :=
  if hasAuth = false then .unauthorized
  else
    match settleData listsRes with
    | .nonArray => .failure
    | .arr lists =>
      let t := sumTotals lists
      let itemsSample : JArr String :=
        match settleData itemsRes with
        | .arr xs => .arr (xs.take 5)
        | .nonArray => .nonArray
      .ok
        { totalLists := (lists.length : Int), totalItems := t.1,
          purchasedItems := t.2.1, estimatedTotal := round2 t.2.2,
          sample := lists.take 5 }
        { sampleItems := itemsSample, categories := settleData catsRes }

/-! ## Aggregator: /api/search -/

/-- JS `s.toLowerCase()` on the character list. -/
def lowerStr (s : String) : String := String.mk (s.data.map Char.toLower)

/-- JS `hay.includes(needle)` on character lists. -/
def containsSub (needle : List Char) : List Char → Bool
  | [] => needle.isEmpty
  | c :: rest => needle.isPrefixOf (c :: rest) || containsSub needle rest

/-- JS `hay.includes(needle)` on strings. -/
def strIncludes (hay needle : String) : Bool := containsSub needle.data hay.data

/-- One of the caller's lists as the search filter sees it: a `name` and
the cached `itemName`s of its items (`l.name || ''`, `l.items || []`,
`it.itemName || ''` all collapse to these fields). -/
structure SListEntry where
  name : String
  items : List String
  deriving DecidableEq

/-- The search filter predicate for one list: case-insensitive substring
hit on the list name or on any cached item name. -/
def entryMatches (term : String) (l : SListEntry) : Bool :=
  strIncludes (lowerStr l.name) term || l.items.any fun it => strIncludes (lowerStr it) term

/-- The search payload: query echo, item results (total plus top 20) and
list results (total plus top 10). -/
structure SearchData where
  query : String
  itemsTotal : Int
  itemsResults : List String
  listsTotal : Int
  listsResults : List SListEntry
  deriving DecidableEq

/-- Search endpoint outcome: 200 payload, 400 for a missing/empty `q`,
or the catch-all 500. -/
inductive SearchOut where
  | ok (d : SearchData)
  | badRequest
  | failure
  deriving DecidableEq

/-- HTTP status of a search outcome. -/
def SearchOut.status : SearchOut → Nat
  | .ok _ => 200
  | .badRequest => 400
  | .failure => 500

/-- `globalSearch(req, res)` (lines 350–397). `q` is the query parameter
(`none` when absent; JS `!q` is also true for the empty string).
`itemsRes` is the settled item-service search branch after its
`value?.data?.results || value?.data || value?.results || []` extraction;
`listsRes` is the settled list-service branch after the
`Array.isArray(value?.data) ? value.data : value` extraction, and is only
consulted when an Authorization header was present (otherwise only one
promise is in the array and `listsRes` is undefined). Returns the
outcome together with two flags: whether the item-service search call
and the list-service call were issued. A fulfilled non-array lists value
reaches `.filter` and throws, landing in the catch-all 500. -/
def globalSearch (q : Option String) (hasAuth : Bool)
    (itemsRes : Settled (List String))
    (listsRes : Settled (JArr SListEntry)) : SearchOut × Bool × Bool :=
  match q with
  | none => (.badRequest, false, false)
  | some qs =>
    if qs = "" then (.badRequest, false, false)
    else
      let itemResults := match itemsRes with | .fulfilled xs => xs | .rejected => []
      let term := lowerStr qs
      let listMatches? : Option (List SListEntry) :=
        if hasAuth then
          match listsRes with
          | .fulfilled (.arr xs) => some (xs.filter (entryMatches term))
          | .fulfilled .nonArray => none
          | .rejected => some []
        else some []
      match listMatches? with
      | none => (.failure, true, hasAuth)
      | some lm =>
        (.ok { query := qs, itemsTotal := (itemResults.length : Int),
               itemsResults := itemResults.take 20,
               listsTotal := (lm.length : Int), listsResults := lm.take 10 },
         true, hasAuth)

/-! ## Helper lemmas -/

theorem reset_props (b? : Option Breaker) :
    failCount (resetCircuitBreaker b?) = 0 ∧ openFlag (resetCircuitBreaker b?) = false
    ∧ halfOpenFlag (resetCircuitBreaker b?) = false := by
  cases b? <;> simp [resetCircuitBreaker, failCount, openFlag, halfOpenFlag]

theorem gate_failCount (b? : Option Breaker) (now : Int) :
    failCount (isCircuitOpen b? now).2 = failCount b? := by
  cases b? with
  | none => simp [isCircuitOpen]
  | some a =>
    simp only [isCircuitOpen]
    split <;> simp [failCount]

theorem gate_not_open (b? : Option Breaker) (now : Int)
    (h : (isCircuitOpen b? now).1 = false) : openFlag (isCircuitOpen b? now).2 = false := by
  cases b? with
  | none => simp [isCircuitOpen, openFlag]
  | some a =>
    simp only [isCircuitOpen] at h ⊢
    by_cases hc : a.isOpen = true ∧ 30000 < now - a.lastFailure
    · rw [if_pos hc] at h ⊢
      simp [openFlag]
    · rw [if_neg hc] at h ⊢
      simpa [openFlag] using h

/-! ## Claims -/

/-- C1: whenever a `recordFailure` call brings a service's consecutive
failure count to 3 or more, the resulting record is open; and while a
record is open within the 30s cool-down since its last failure, every
request routed to that service is answered 503 with the circuit-open
body naming the service, with no backend call attempted, no registry
lookup performed, and the record left unchanged. -/
theorem claim_C1 :
    (∀ (b? : Option Breaker) (now : Int),
        3 ≤ (recordFailure b? now).failures → (recordFailure b? now).isOpen = true)
    ∧ (∀ (entry : RouteRule) (req : Request) (discovered : Option String)
        (known : List String) (b : Breaker) (now : Int) (backend : BackendBehavior),
        b.isOpen = true → now - b.lastFailure ≤ 30000 →
        proxyByEntry entry req discovered known (some b) now backend =
          { status := 503, body := .circuitOpen entry.service, breaker := some b,
            backendCalled := false, registryQueried := false, config := none }) := by
  constructor
  · intro b? now h
    by_cases hc : (3 : Int) ≤ (b?.getD freshBreaker).failures + 1
    · simp [recordFailure, hc]
    · simp [recordFailure, hc] at h
  · intro entry req discovered known b now backend hopen helapsed
    have hgate : isCircuitOpen (some b) now = (true, some b) := by
      simp only [isCircuitOpen]
      rw [if_neg, hopen]
      rintro ⟨_, hlt⟩
      omega
    simp [proxyByEntry, hgate]

/-- Witness for C1: a third failure opens the circuit, and an open
breaker 1000 ms after its last failure short-circuits a request. -/
theorem claim_C1_witness :
    (recordFailure (some ⟨2, false, false, 0⟩) 5).isOpen = true
    ∧ proxyByEntry ⟨"/api/items", "item-service", "/api/items", "/items"⟩
        ⟨"GET", "/api/items/42", [], [], ""⟩ (some "http://x") []
        (some ⟨3, true, false, 1000⟩) 2000 .refuses =
      { status := 503, body := .circuitOpen "item-service",
        breaker := some ⟨3, true, false, 1000⟩,
        backendCalled := false, registryQueried := false, config := none } :=
  ⟨claim_C1.1 (some ⟨2, false, false, 0⟩) 5 (by decide),
   claim_C1.2 _ _ _ _ _ _ _ rfl (by decide)⟩

/-- C2: after any forwarded call that completes successfully (backend
response with status < 500), the breaker entry for the service has
failure count 0 and both circuit flags cleared, whatever its prior
state. -/
theorem claim_C2 (entry : RouteRule) (req : Request) (svcUrl : String)
    (known : List String) (b? : Option Breaker) (now : Int) (st : Nat) (body : String)
    (hgate : (isCircuitOpen b? now).1 = false) (hst : st < 500) :
    failCount (proxyByEntry entry req (some svcUrl) known b? now (.responds st body)).breaker = 0
    ∧ openFlag (proxyByEntry entry req (some svcUrl) known b? now (.responds st body)).breaker = false
    ∧ halfOpenFlag (proxyByEntry entry req (some svcUrl) known b? now (.responds st body)).breaker
        = false := by
  have h := reset_props (isCircuitOpen b? now).2
  simpa [proxyByEntry, hgate, hst] using h

/-- Witness for C2: a 200 response while two failures were on record
resets the entry to a closed state. -/
theorem claim_C2_witness :
    failCount (proxyByEntry ⟨"/api/items", "item-service", "/api/items", "/items"⟩
        ⟨"GET", "/api/items", [], [], ""⟩ (some "http://x") []
        (some ⟨2, false, true, 10⟩) 20 (.responds 200 "ok")).breaker = 0
    ∧ openFlag (proxyByEntry ⟨"/api/items", "item-service", "/api/items", "/items"⟩
        ⟨"GET", "/api/items", [], [], ""⟩ (some "http://x") []
        (some ⟨2, false, true, 10⟩) 20 (.responds 200 "ok")).breaker = false
    ∧ halfOpenFlag (proxyByEntry ⟨"/api/items", "item-service", "/api/items", "/items"⟩
        ⟨"GET", "/api/items", [], [], ""⟩ (some "http://x") []
        (some ⟨2, false, true, 10⟩) 20 (.responds 200 "ok")).breaker = false :=
  claim_C2 _ _ _ _ _ _ _ _ (by decide) (by decide)

/-- C3: a 4xx backend response never increments the failure count (the
entry is reset to 0, which never exceeds the prior non-negative count)
and is relayed to the client verbatim, same status and body. -/
theorem claim_C3 (entry : RouteRule) (req : Request) (svcUrl : String)
    (known : List String) (b? : Option Breaker) (now : Int) (st : Nat) (body : String)
    (hgate : (isCircuitOpen b? now).1 = false) (_h4a : 400 ≤ st) (h4b : st < 500)
    (hpre : 0 ≤ failCount b?) :
    (proxyByEntry entry req (some svcUrl) known b? now (.responds st body)).status = st
    ∧ (proxyByEntry entry req (some svcUrl) known b? now (.responds st body)).body = .backend body
    ∧ failCount (proxyByEntry entry req (some svcUrl) known b? now (.responds st body)).breaker = 0
    ∧ failCount (proxyByEntry entry req (some svcUrl) known b? now (.responds st body)).breaker
        ≤ failCount b? := by
  have h := reset_props (isCircuitOpen b? now).2
  refine ⟨by simp [proxyByEntry, hgate, h4b], by simp [proxyByEntry, hgate, h4b], ?_, ?_⟩
  · simpa [proxyByEntry, hgate, h4b] using h.1
  · have h0 : failCount (proxyByEntry entry req (some svcUrl) known b? now
        (.responds st body)).breaker = 0 := by
      simpa [proxyByEntry, hgate, h4b] using h.1
    rw [h0]
    exact hpre

/-- Witness for C3: a 404 with one failure on record is relayed as-is
and leaves the count at 0. -/
theorem claim_C3_witness :
    (proxyByEntry ⟨"/api/items", "item-service", "/api/items", "/items"⟩
        ⟨"GET", "/api/items/9", [], [], ""⟩ (some "http://x") []
        (some ⟨1, false, false, 10⟩) 20 (.responds 404 "nf")).status = 404
    ∧ (proxyByEntry ⟨"/api/items", "item-service", "/api/items", "/items"⟩
        ⟨"GET", "/api/items/9", [], [], ""⟩ (some "http://x") []
        (some ⟨1, false, false, 10⟩) 20 (.responds 404 "nf")).body = .backend "nf"
    ∧ failCount (proxyByEntry ⟨"/api/items", "item-service", "/api/items", "/items"⟩
        ⟨"GET", "/api/items/9", [], [], ""⟩ (some "http://x") []
        (some ⟨1, false, false, 10⟩) 20 (.responds 404 "nf")).breaker = 0
    ∧ failCount (proxyByEntry ⟨"/api/items", "item-service", "/api/items", "/items"⟩
        ⟨"GET", "/api/items/9", [], [], ""⟩ (some "http://x") []
        (some ⟨1, false, false, 10⟩) 20 (.responds 404 "nf")).breaker
        ≤ failCount (some ⟨1, false, false, 10⟩) :=
  claim_C3 _ _ _ _ _ _ _ _ (by decide) (by decide) (by decide) (by decide)

/-- C4: the Open to HalfOpen demotion happens only inside the gate
check: a gate check at most 30000 ms after the last failure leaves an
open record untouched and reports it open; the first gate check strictly
after the window demotes the record to half-open and reports the circuit
as not open; and neither failure recording nor the success reset ever
turns the half-open flag on. -/
theorem claim_C4 :
    (∀ (b : Breaker) (now : Int), b.isOpen = true → now - b.lastFailure ≤ 30000 →
        isCircuitOpen (some b) now = (true, some b))
    ∧ (∀ (b : Breaker) (now : Int), b.isOpen = true → 30000 < now - b.lastFailure →
        isCircuitOpen (some b) now =
          (false, some { b with isOpen := false, isHalfOpen := true }))
    ∧ (∀ (b? : Option Breaker) (now : Int), halfOpenFlag b? = false →
        (recordFailure b? now).isHalfOpen = false
        ∧ halfOpenFlag (resetCircuitBreaker b?) = false) := by
  refine ⟨?_, ?_, ?_⟩
  · intro b now hopen helapsed
    simp only [isCircuitOpen]
    rw [if_neg, hopen]
    rintro ⟨_, hlt⟩
    omega
  · intro b now hopen hlate
    simp only [isCircuitOpen]
    rw [if_pos ⟨hopen, hlate⟩]
  · intro b? now hho
    constructor
    · have hold : (b?.getD freshBreaker).isHalfOpen = false := by
        cases b? with
        | none => simp [freshBreaker]
        | some a => simpa [halfOpenFlag] using hho
      by_cases hc : (3 : Int) ≤ (b?.getD freshBreaker).failures + 1
      · simp [recordFailure, hc]
      · simp [recordFailure, hc, hold]
    · cases b? <;> simp [resetCircuitBreaker, halfOpenFlag]

/-- Witness for C4: at 30000 ms the open record stays open and
unchanged, at 30001 ms it demotes to half-open with the check reporting
not-open, and failure recording and reset keep the half-open flag off. -/
theorem claim_C4_witness :
    isCircuitOpen (some ⟨3, true, false, 0⟩) 30000 = (true, some ⟨3, true, false, 0⟩)
    ∧ isCircuitOpen (some ⟨3, true, false, 0⟩) 30001 = (false, some ⟨3, false, true, 0⟩)
    ∧ ((recordFailure (some ⟨1, false, false, 0⟩) 7).isHalfOpen = false
        ∧ halfOpenFlag (resetCircuitBreaker (some ⟨1, false, false, 0⟩)) = false) :=
  ⟨claim_C4.1 _ 30000 rfl (by decide),
   claim_C4.2.1 _ 30001 rfl (by decide),
   claim_C4.2.2 (some ⟨1, false, false, 0⟩) 7 (by decide)⟩

/-- A concrete half-open record reached through three recorded failures
followed by a gate check after the cool-down. -/
theorem reach_half_example : Reach (some (⟨3, false, true, 30⟩ : Breaker)) := by
  have r0 : Reach none := Reach.init
  have r1 := Reach.fail none 10 r0
  have r2 := Reach.fail _ 20 r1
  have r3 := Reach.fail _ 30 r2
  have r4 := Reach.gate _ 40000 r3
  have he : (isCircuitOpen (some (recordFailure (some (recordFailure
      (some (recordFailure none 10)) 20)) 30)) 40000).2
      = some (⟨3, false, true, 30⟩ : Breaker) := by decide
  exact he ▸ r4

/-- C5: a half-open record lets the probing request through the gate
unchanged; and for any reachable half-open record, a failure of the
probe re-opens the circuit, clears the half-open flag, and restamps
`lastFailure` with the failure time, so that every gate check within
30000 ms of that failure reports the circuit open again. -/
theorem claim_C5 :
    (∀ (b : Breaker) (now : Int), b.isHalfOpen = true → b.isOpen = false →
        isCircuitOpen (some b) now = (false, some b))
    ∧ (∀ (b? : Option Breaker) (b : Breaker) (now : Int), Reach b? → b? = some b →
        b.isHalfOpen = true →
        (recordFailure b? now).isOpen = true ∧ (recordFailure b? now).isHalfOpen = false
        ∧ (recordFailure b? now).lastFailure = now)
    ∧ (∀ (b? : Option Breaker) (b : Breaker) (now t : Int), Reach b? → b? = some b →
        b.isHalfOpen = true → t - now ≤ 30000 →
        (isCircuitOpen (some (recordFailure b? now)) t).1 = true) := by
  have key : ∀ (b? : Option Breaker) (b : Breaker) (now : Int), Reach b? → b? = some b →
      b.isHalfOpen = true →
      recordFailure b? now = { failures := b.failures + 1, isOpen := true,
                               isHalfOpen := false, lastFailure := now } := by
    intro b? b now hr hb hho
    subst hb
    have h3 : 3 ≤ b.failures := (reach_strongInv _ hr b rfl).2.2.2 hho
    have hc : (3 : Int) ≤ b.failures + 1 := by linarith
    simp [recordFailure, hc]
  refine ⟨?_, ?_, ?_⟩
  · intro b now hho hio
    have hneg : ¬(b.isOpen = true ∧ 30000 < now - b.lastFailure) := by
      rintro ⟨h1, _⟩
      rw [hio] at h1
      exact Bool.noConfusion h1
    simp only [isCircuitOpen]
    rw [if_neg hneg, hio]
  · intro b? b now hr hb hho
    rw [key b? b now hr hb hho]
    exact ⟨rfl, rfl, rfl⟩
  · intro b? b now t hr hb hho hwin
    rw [key b? b now hr hb hho]
    simp only [isCircuitOpen]
    rw [if_neg (show ¬(True ∧ 30000 < t - now) by rintro ⟨_, hlt⟩; omega)]

/-- Witness for C5: the reachable half-open record above admits the
probe, and a failed probe at time 50 re-opens the circuit and blocks a
request arriving 10000 ms later. -/
theorem claim_C5_witness :
    isCircuitOpen (some ⟨3, false, true, 30⟩) 31 = (false, some ⟨3, false, true, 30⟩)
    ∧ ((recordFailure (some ⟨3, false, true, 30⟩) 50).isOpen = true
        ∧ (recordFailure (some ⟨3, false, true, 30⟩) 50).isHalfOpen = false
        ∧ (recordFailure (some ⟨3, false, true, 30⟩) 50).lastFailure = 50)
    ∧ (isCircuitOpen (some (recordFailure (some ⟨3, false, true, 30⟩) 50)) 10050).1 = true :=
  ⟨claim_C5.1 _ 31 rfl rfl,
   claim_C5.2.1 _ _ 50 reach_half_example rfl rfl,
   claim_C5.2.2 _ _ 50 10050 reach_half_example rfl rfl (by decide)⟩

theorem isPrefixOf_append (l r : List Char) : l.isPrefixOf (l ++ r) = true := by
  induction l with
  | nil => simp [List.isPrefixOf]
  | cons a as ih => simp [List.isPrefixOf, ih]

theorem removeFirst_append (pat rest : List Char) :
    removeFirst pat (pat ++ rest) = rest := by
  cases pat with
  | nil =>
    cases rest with
    | nil => rfl
    | cons c cs => simp [removeFirst, List.isPrefixOf]
  | cons p ps =>
    show removeFirst (p :: ps) (p :: (ps ++ rest)) = rest
    simp only [removeFirst]
    rw [if_pos]
    · show (p :: (ps ++ rest)).drop (p :: ps).length = rest
      rw [List.length_cons, List.drop_succ_cons, List.drop_left]
    · exact isPrefixOf_append (p :: ps) rest

theorem replaceFirst_append (strip rest : String) :
    replaceFirstStr (strip ++ rest) strip = rest := by
  unfold replaceFirstStr
  rw [String.data_append, removeFirst_append]

theorem rewriteSuffix_append (strip rest : String) (t : List Char)
    (hdata : rest.data = '/' :: t) (hne : rest ≠ "/") :
    rewriteSuffix strip (strip ++ rest) = rest := by
  have hsw : startsWithSlash rest = true := by
    unfold startsWithSlash
    rw [hdata]
    simp
  have hnz : rest ≠ "" := by
    intro h
    subst h
    have hd : ("" : String).data = [] := rfl
    rw [hd] at hdata
    exact List.noConfusion hdata
  simp only [rewriteSuffix]
  rw [replaceFirst_append]
  simp [hsw, hne, hnz]

/-- The axios config produced for a request whose original URL is the
rule's strip-prefix followed by a residual path starting with `/`. -/
theorem buildConfig_rewrite (entry : RouteRule) (svcUrl : String) (req : Request)
    (rest : String) (t : List Char)
    (hurl : req.originalUrl = entry.strip ++ rest)
    (hdata : rest.data = '/' :: t) (hne : rest ≠ "/") :
    buildConfig entry svcUrl req =
      { method := req.method,
        url := svcUrl ++ entry.forwardBase ++ rest,
        headers := req.headers.filter fun h => !(h.1 == "host" || h.1 == "content-length"),
        timeout := 10000,
        data := if ["POST", "PUT", "PATCH"].contains req.method then some req.body else none,
        params := if req.query.isEmpty then none else some req.query } := by
  unfold buildConfig
  rw [hurl, rewriteSuffix_append entry.strip rest t hdata hne, String.append_assoc]

/-- C6: every forwarded request uses the URL formed by the discovered
base URL, the rule's forward-base and the original path with the
strip-prefix removed (residual segments preserved), keeping the original
method, the headers minus `host` and `content-length`, and the body
exactly for mutating methods; in particular `/api/items/42` under the
items rule is forwarded to `<backendBaseUrl>/items/42`. -/
theorem claim_C6 :
    (∀ (entry : RouteRule) (req : Request) (svcUrl : String) (known : List String)
        (b? : Option Breaker) (now : Int) (backend : BackendBehavior)
        (rest : String) (t : List Char),
        (isCircuitOpen b? now).1 = false →
        req.originalUrl = entry.strip ++ rest → rest.data = '/' :: t → rest ≠ "/" →
        (proxyByEntry entry req (some svcUrl) known b? now backend).config =
          some { method := req.method,
                 url := svcUrl ++ entry.forwardBase ++ rest,
                 headers := req.headers.filter fun h =>
                   !(h.1 == "host" || h.1 == "content-length"),
                 timeout := 10000,
                 data := if ["POST", "PUT", "PATCH"].contains req.method then some req.body
                         else none,
                 params := if req.query.isEmpty then none else some req.query })
    ∧ rewriteSuffix "/api/items" "/api/items/42" = "/42"
    ∧ (∀ (svcUrl : String) (req : Request), req.originalUrl = "/api/items/42" →
        (buildConfig ⟨"/api/items", "item-service", "/api/items", "/items"⟩ svcUrl req).url
          = svcUrl ++ "/items/42") := by
  refine ⟨?_, by decide, ?_⟩
  · intro entry req svcUrl known b? now backend rest t hgate hurl hdata hne
    have hcfg := buildConfig_rewrite entry svcUrl req rest t hurl hdata hne
    cases backend with
    | responds st body =>
      by_cases hst : st < 500 <;> simp [proxyByEntry, hgate, hst, hcfg]
    | refuses => simp [proxyByEntry, hgate, hcfg]
    | timesOut => simp [proxyByEntry, hgate, hcfg]
    | otherFailure m => simp [proxyByEntry, hgate, hcfg]
  · intro svcUrl req hurl
    have h1 : rewriteSuffix "/api/items" "/api/items/42" = "/42" := by decide
    simp only [buildConfig, hurl, h1]
    have h2 : ("/items" : String) ++ "/42" = "/items/42" := by decide
    rw [h2]

/-- Witness for C6: a GET of `/api/items/42` through the items rule is
forwarded to `http://b/items/42` with the `host` header dropped. -/
theorem claim_C6_witness :
    (proxyByEntry ⟨"/api/items", "item-service", "/api/items", "/items"⟩
        ⟨"GET", "/api/items/42", [("host", "gw"), ("accept", "aj")], [], ""⟩
        (some "http://b") [] none 0 (.responds 200 "ok")).config =
      some { method := "GET", url := "http://b" ++ "/items" ++ "/42",
             headers := [("host", "gw"), ("accept", "aj")].filter fun h =>
               !(h.1 == "host" || h.1 == "content-length"),
             timeout := 10000,
             data := if ["POST", "PUT", "PATCH"].contains "GET" then some "" else none,
             params := if ([] : List (String × String)).isEmpty then none
                       else some ([] : List (String × String)) }
    ∧ (buildConfig ⟨"/api/items", "item-service", "/api/items", "/items"⟩ "http://b"
        ⟨"GET", "/api/items/42", [], [], ""⟩).url = "http://b" ++ "/items/42" :=
  ⟨claim_C6.1 _ _ _ _ _ _ _ "/42" ['4', '2'] (by decide) (by decide) (by decide) (by decide),
   claim_C6.2.2 "http://b" _ (by decide)⟩

/-- C7: when registry discovery fails, the gateway answers 503 with the
unknown-service body naming the service and the currently known
services, attempts no backend call, and records no failure: the breaker
entry is exactly the one the gate check left, its failure count is
unchanged and the circuit is not open. -/
theorem claim_C7 (entry : RouteRule) (req : Request) (known : List String)
    (b? : Option Breaker) (now : Int) (backend : BackendBehavior)
    (hgate : (isCircuitOpen b? now).1 = false) :
    (proxyByEntry entry req none known b? now backend).status = 503
    ∧ (proxyByEntry entry req none known b? now backend).body
        = .unknownService entry.service known
    ∧ (proxyByEntry entry req none known b? now backend).backendCalled = false
    ∧ (proxyByEntry entry req none known b? now backend).breaker = (isCircuitOpen b? now).2
    ∧ failCount (proxyByEntry entry req none known b? now backend).breaker = failCount b?
    ∧ openFlag (proxyByEntry entry req none known b? now backend).breaker = false := by
  have hb : (proxyByEntry entry req none known b? now backend).breaker
      = (isCircuitOpen b? now).2 := by simp [proxyByEntry, hgate]
  refine ⟨by simp [proxyByEntry, hgate], by simp [proxyByEntry, hgate],
    by simp [proxyByEntry, hgate], hb, ?_, ?_⟩
  · rw [hb]
    exact gate_failCount b? now
  · rw [hb]
    exact gate_not_open b? now hgate

/-- Witness for C7: an undiscovered item-service with two failures on
record yields the unknown-service 503 and leaves the count at 2. -/
theorem claim_C7_witness :
    (proxyByEntry ⟨"/api/items", "item-service", "/api/items", "/items"⟩
        ⟨"GET", "/api/items", [], [], ""⟩ none ["user-service"]
        (some ⟨2, false, false, 5⟩) 10 .refuses).status = 503
    ∧ (proxyByEntry ⟨"/api/items", "item-service", "/api/items", "/items"⟩
        ⟨"GET", "/api/items", [], [], ""⟩ none ["user-service"]
        (some ⟨2, false, false, 5⟩) 10 .refuses).body
        = .unknownService "item-service" ["user-service"]
    ∧ (proxyByEntry ⟨"/api/items", "item-service", "/api/items", "/items"⟩
        ⟨"GET", "/api/items", [], [], ""⟩ none ["user-service"]
        (some ⟨2, false, false, 5⟩) 10 .refuses).backendCalled = false
    ∧ (proxyByEntry ⟨"/api/items", "item-service", "/api/items", "/items"⟩
        ⟨"GET", "/api/items", [], [], ""⟩ none ["user-service"]
        (some ⟨2, false, false, 5⟩) 10 .refuses).breaker
        = (isCircuitOpen (some ⟨2, false, false, 5⟩) 10).2
    ∧ failCount (proxyByEntry ⟨"/api/items", "item-service", "/api/items", "/items"⟩
        ⟨"GET", "/api/items", [], [], ""⟩ none ["user-service"]
        (some ⟨2, false, false, 5⟩) 10 .refuses).breaker = failCount (some ⟨2, false, false, 5⟩)
    ∧ openFlag (proxyByEntry ⟨"/api/items", "item-service", "/api/items", "/items"⟩
        ⟨"GET", "/api/items", [], [], ""⟩ none ["user-service"]
        (some ⟨2, false, false, 5⟩) 10 .refuses).breaker = false :=
  claim_C7 _ _ _ _ _ _ (by decide)

/-- C8: an authenticated dashboard request whose caller-scoped list
branch is rejected while both catalog branches fulfil with array data
still returns 200 with `success: true`, a lists segment of empty totals
(0 lists, 0 items, 0 purchased, 0.00 estimated, empty sample), and the
catalog segment populated from the succeeding branches. -/
theorem claim_C8 (xs cs : List String) :
    getDashboard true .rejected (.fulfilled (some (.arr xs))) (.fulfilled (some (.arr cs)))
      = .ok { totalLists := 0, totalItems := 0, purchasedItems := 0, estimatedTotal := 0,
              sample := [] }
            { sampleItems := .arr (xs.take 5), categories := .arr cs }
    ∧ (getDashboard true .rejected (.fulfilled (some (.arr xs)))
        (.fulfilled (some (.arr cs)))).status = 200
    ∧ (getDashboard true .rejected (.fulfilled (some (.arr xs)))
        (.fulfilled (some (.arr cs)))).success = true := by
  have h : getDashboard true .rejected (.fulfilled (some (.arr xs)))
      (.fulfilled (some (.arr cs)))
      = .ok { totalLists := 0, totalItems := 0, purchasedItems := 0, estimatedTotal := 0,
              sample := [] }
            { sampleItems := .arr (xs.take 5), categories := .arr cs } := by
    simp [getDashboard, settleData, sumTotals, round2]
  exact ⟨h, by rw [h]; rfl, by rw [h]; rfl⟩

/-- C9: a global-search request whose `q` parameter is absent or empty
is answered 400 with neither the catalog search call nor the
list-service call issued. -/
theorem claim_C9 (q : Option String) (hasAuth : Bool)
    (itemsRes : Settled (List String)) (listsRes : Settled (JArr SListEntry))
    (hq : q = none ∨ q = some "") :
    (globalSearch q hasAuth itemsRes listsRes).1.status = 400
    ∧ (globalSearch q hasAuth itemsRes listsRes).2.1 = false
    ∧ (globalSearch q hasAuth itemsRes listsRes).2.2 = false := by
  rcases hq with h | h <;> subst h <;> simp [globalSearch, SearchOut.status]

/-- Witness for C9: an authenticated search with no `q` is rejected with
400 and no backend calls. -/
theorem claim_C9_witness :
    (globalSearch none true .rejected .rejected).1.status = 400
    ∧ (globalSearch none true .rejected .rejected).2.1 = false
    ∧ (globalSearch none true .rejected .rejected).2.2 = false :=
  claim_C9 none true .rejected .rejected (Or.inl rfl)

/-- C10: every reachable circuit-breaker map entry is never both open
and half-open and carries a non-negative failure count, and each of the
three mutating operations (gate check, failure recording, success
reset) preserves this invariant. -/
theorem claim_C10 :
    (∀ b? : Option Breaker, Reach b? → BreakerInv b?)
    ∧ (∀ (b? : Option Breaker) (now : Int), BreakerInv b? →
        BreakerInv (isCircuitOpen b? now).2)
    ∧ (∀ (b? : Option Breaker) (now : Int), BreakerInv b? →
        BreakerInv (some (recordFailure b? now)))
    ∧ (∀ b? : Option Breaker, BreakerInv b? → BreakerInv (resetCircuitBreaker b?)) := by
  refine ⟨?_, ?_, ?_, ?_⟩
  · intro b? hr b hb
    have h := reach_strongInv b? hr b hb
    exact ⟨h.1, h.2.1⟩
  · intro b? now h
    cases b? with
    | none => intro b hb; simp [isCircuitOpen] at hb
    | some a =>
      intro b hb
      obtain ⟨hna, h0⟩ := h a rfl
      simp only [isCircuitOpen] at hb
      by_cases hc : a.isOpen = true ∧ 30000 < now - a.lastFailure
      · rw [if_pos hc] at hb
        simp only at hb
        cases Option.some.inj hb
        exact ⟨by simp, h0⟩
      · rw [if_neg hc] at hb
        simp only at hb
        cases Option.some.inj hb
        exact ⟨hna, h0⟩
  · intro b? now h
    have hold : ¬((b?.getD freshBreaker).isOpen = true
          ∧ (b?.getD freshBreaker).isHalfOpen = true)
        ∧ 0 ≤ (b?.getD freshBreaker).failures := by
      cases b? with
      | none => simp [freshBreaker]
      | some a => simpa using h a rfl
    obtain ⟨hna, h0⟩ := hold
    intro b hb
    cases Option.some.inj hb
    simp only [recordFailure]
    by_cases hc : (3 : Int) ≤ (b?.getD freshBreaker).failures + 1
    · rw [if_pos hc]
      exact ⟨by simp, by simp; linarith⟩
    · rw [if_neg hc]
      exact ⟨by simpa using hna, by simp; linarith⟩
  · intro b? h
    cases b? with
    | none => intro b hb; simp [resetCircuitBreaker] at hb
    | some a =>
      intro b hb
      simp only [resetCircuitBreaker, Option.map] at hb
      cases Option.some.inj hb
      exact ⟨by simp, by simp⟩

/-- Witness for C10: the empty map entry is reachable and satisfies the
invariant, and each operation applied to a concrete invariant-satisfying
open record yields an entry that still satisfies it. -/
theorem claim_C10_witness :
    BreakerInv none
    ∧ BreakerInv (isCircuitOpen (some ⟨3, true, false, 0⟩) 50000).2
    ∧ BreakerInv (some (recordFailure (some ⟨3, true, false, 0⟩) 50000))
    ∧ BreakerInv (resetCircuitBreaker (some ⟨3, true, false, 0⟩)) := by
  have hinv : BreakerInv (some (⟨3, true, false, 0⟩ : Breaker)) := by
    intro b hb
    cases Option.some.inj hb
    exact ⟨by decide, by decide⟩
  exact ⟨claim_C10.1 none Reach.init,
    claim_C10.2.1 (some ⟨3, true, false, 0⟩) 50000 hinv,
    claim_C10.2.2.1 (some ⟨3, true, false, 0⟩) 50000 hinv,
    claim_C10.2.2.2 (some ⟨3, true, false, 0⟩) hinv⟩

end Gateway
